import Mathlib

/-!
Verification development for the spacebot-link frame transport pipeline.

The definitions below are a shallow embedding of the Python sources:
  * `Publisher.*`     embeds `camera_publisher/publisher.py` (the delay
    queue drain of the main loop, the pacing sleep, and the camera-open
    fall-backs);
  * `CameraStream.*`  embeds `spacebot_link/src/camera_stream.py`;
  * `SensorBus.*`     embeds `spacebot_link/src/sensor_bus.py`.
Wall-clock readings (`time.time()`) are modelled as rationals, measured in
seconds exactly as in the source; external effects (the camera device, the
JPEG codec, the socket) are modelled as explicit inputs.
-/

namespace SpacebotLink

namespace Publisher

/-- An encoded frame as stored in `frame_queue`: the opaque JPEG buffer
(abstracted to an identifier) together with its capture timestamp in
seconds, as appended by `frame_queue.append((buf, time.time()))`. -/
structure Frame where
  buf : Nat
  ts : ℚ
deriving DecidableEq, Repr

/-- The drain step of the main loop (publisher.py lines 176-183): while the
queue is non-empty, examine the head `(buf, ts)`; if
`(now - ts) * 1000.0 >= delay_ms` the head is sent and popped, otherwise
the drain stops.  Returns the frames sent this drain (in send order) and
the remaining queue. -/
def drain (delayMs now : ℚ) : List Frame → List Frame × List Frame
  | [] => ([], [])
  | f :: rest =>
    if (now - f.ts) * 1000 ≥ delayMs then
      ((f :: (drain delayMs now rest).1), (drain delayMs now rest).2)
    else ([], f :: rest)

/-- One observable event of the publisher main loop: a successful
capture-and-encode appending a frame to the queue tail, or a drain pass at
a given clock reading `now`. -/
inductive Event where
  | capture (f : Frame)
  | drainAt (now : ℚ)
deriving DecidableEq, Repr

/-- The loop state: the pending delay queue and the frames transmitted so
far, in transmission order. -/
structure PubState where
  queue : List Frame
  sent : List Frame
deriving DecidableEq, Repr

/-- One loop event applied to the state: `capture` appends to the queue
tail; `drainAt now` runs the drain step, transmitting the released
frames. -/
def step (delayMs : ℚ) (s : PubState) : Event → PubState
  | .capture f => ⟨s.queue ++ [f], s.sent⟩
  | .drainAt now => ⟨(drain delayMs now s.queue).2, s.sent ++ (drain delayMs now s.queue).1⟩

/-- A run of the publisher loop over a sequence of events. -/
def run (delayMs : ℚ) (s : PubState) (evs : List Event) : PubState :=
  evs.foldl (step delayMs) s

/-- The frames appended over a sequence of events, in capture order. -/
def captured : List Event → List Frame
  | [] => []
  | .capture f :: es => f :: captured es
  | .drainAt _ :: es => captured es

/-- `target_dt = 1.0 / (actual_fps if actual_fps > 0 else 30.0)`
(publisher.py line 153). -/
def targetDt (actualFps : ℚ) : ℚ :=
  1 / (if actualFps > 0 then actualFps else 30)

/-- The clock readings taken during one loop iteration: `tStart` when the
iteration begins (before the capture/encode phase), `tNow` the reading
`now = time.time()` at line 176 (after capture and encode, before the
drain), and `tEnd` the reading `time.time()` inside the sleep expression
at line 186 (after the drain). -/
structure IterClock where
  tStart : ℚ
  tNow : ℚ
  tEnd : ℚ
deriving DecidableEq, Repr

/-- The pacing sleep of line 186:
`time.sleep(max(0.0, target_dt - (time.time() - now)))` — the elapsed
time is measured from `now` (taken after capture/encode, before the
drain) to the fresh reading `tEnd`. -/
def paceSleep (actualFps : ℚ) (c : IterClock) : ℚ :=
  max 0 (targetDt actualFps - (c.tEnd - c.tNow))

/-- Modelled from the claim wording (not the source): the sleep the claim
describes, `max(0, target_frame_interval - elapsed_this_iteration)` with
`elapsed_this_iteration` counted from the start of the iteration, so that
capture and encode time are included. -/
def paceSleepClaimed (actualFps : ℚ) (c : IterClock) : ℚ :=
  max 0 (targetDt actualFps - (c.tEnd - c.tStart))

/-- What the generic camera device reports when opened
(publisher.py lines 55-61): whether `cap.isOpened()`, and the raw
`cap.get(...)` readings for width, height and fps (`x or 0` is the
identity on numbers up to replacing a falsy 0 by 0, so the readings are
kept as rationals directly). -/
structure CvDevice where
  opened : Bool
  reportedW : ℚ
  reportedH : ℚ
  reportedFps : ℚ
deriving DecidableEq, Repr

/-- Python `int(...)` truncation toward zero. -/
def pyInt (q : ℚ) : ℤ :=
  if 0 ≤ q then ⌊q⌋ else ⌈q⌉

/-- `open_cv_camera` (publisher.py lines 44-65): `None` when the device
cannot be opened; otherwise the reported width/height truncated to
integers and the reported fps, replaced by the default 30.0 when
`actual_fps <= 1e-3`. -/
def open_cv_camera (dev : CvDevice) : Option (ℤ × ℤ × ℚ) :=
  if dev.opened then
    some (pyInt dev.reportedW, pyInt dev.reportedH,
      if dev.reportedFps ≤ 1 / 1000 then 30 else dev.reportedFps)
  else
    none

/-- The ZED fps expression (publisher.py line 95):
`float(... .fps or 30)` — a falsy (zero) report becomes 30. -/
def zedFps (reported : ℚ) : ℚ :=
  if reported = 0 then 30 else reported

/-- Draining never reorders: the frames sent by one drain pass followed by
the remaining queue reconstruct the original queue. -/
theorem drain_sent_append_rest (delayMs now : ℚ) (q : List Frame) :
    (drain delayMs now q).1 ++ (drain delayMs now q).2 = q := by
  induction q with
  | nil => simp [drain]
  | cons f rest ih =>
    by_cases h : (now - f.ts) * 1000 ≥ delayMs
    · simp [drain, h, ih]
    · simp [drain, h]

/-- Every frame a drain pass sends has aged at least `delay_ms`
milliseconds at the drain's clock reading. -/
theorem drain_sent_aged (delayMs now : ℚ) (q : List Frame) :
    ∀ f ∈ (drain delayMs now q).1, delayMs ≤ (now - f.ts) * 1000 := by
  induction q with
  | nil => simp [drain]
  | cons g rest ih =>
    by_cases h : (now - g.ts) * 1000 ≥ delayMs
    · simp only [drain, if_pos h, List.mem_cons]
      rintro f (rfl | hf)
      · exact h
      · exact ih f hf
    · simp [drain, h]

theorem run_sent_queue (delayMs : ℚ) (evs : List Event) :
    ∀ s : PubState,
      (run delayMs s evs).sent ++ (run delayMs s evs).queue =
        s.sent ++ s.queue ++ captured evs := by
  induction evs with
  | nil => intro s; simp [run, captured]
  | cons e es ih =>
    intro s
    cases e with
    | capture f =>
      have h := ih (step delayMs s (.capture f))
      simp only [run, List.foldl_cons] at h ⊢
      simp [step, captured] at h ⊢
      simp [h]
    | drainAt now =>
      have h := ih (step delayMs s (.drainAt now))
      simp only [run, List.foldl_cons] at h ⊢
      simp [step, captured] at h ⊢
      rw [h, ← List.append_assoc ((drain delayMs now s.queue).1), drain_sent_append_rest]

end Publisher

namespace CameraStream

/-- A pixel as a triple of channel values (B, G, R order on the wire). -/
abbrev Pix := Nat × Nat × Nat

/-- A decoded image as its list of pixel rows (`img.shape[:2]` is
`(number of rows, length of the first row)`). -/
structure Image where
  rows : List (List Pix)
deriving DecidableEq, Repr

/-- `img.shape[0]`: the number of rows. -/
def Image.height (im : Image) : Nat := im.rows.length

/-- `img.shape[1]`: the number of columns. -/
def Image.width (im : Image) : Nat := (im.rows.headD []).length

/-- `np.flipud`: reverse the order of the rows. -/
def flipud (im : Image) : Image := ⟨im.rows.reverse⟩

/-- `cv2.cvtColor(..., cv2.COLOR_BGR2RGB)`: swap the first and third
channels of every pixel. -/
def bgr2rgb (im : Image) : Image :=
  ⟨im.rows.map (fun row => row.map (fun p => (p.2.2, p.2.1, p.1)))⟩

/-- The mutable state of a `CameraStream`: `_last_rgb` and the stored
size `(_w, _h)` (camera_stream.py lines 22-23). -/
structure State where
  lastRgb : Option Image
  w : Nat
  h : Nat
deriving DecidableEq, Repr

/-- The state after `__init__`: no frame yet, default size 1280x720. -/
def initState : State := ⟨none, 1280, 720⟩

/-- The `.size` property: `(self._w, self._h)`. -/
def size (s : State) : Nat × Nat := (s.w, s.h)

/-- `CameraStream.poll` (camera_stream.py lines 37-54).  The socket is
modelled by `incoming` (`none` = `zmq.Again`, no pending message) and the
JPEG codec `cv2.imdecode` by the function `decode` (`none` = decode
failure).  On success the decoded image is vertically flipped, converted
BGR→RGB, and stored together with its shape. -/
def poll (decode : List Nat → Option Image) (s : State)
    (incoming : Option (List Nat)) : Bool × State :=
  match incoming with
  | none => (false, s)
  | some msg =>
    match decode msg with
    | none => (false, s)
    | some imgBgr =>
      (true, ⟨some (bgr2rgb (flipud imgBgr)),
        (bgr2rgb (flipud imgBgr)).width, (bgr2rgb (flipud imgBgr)).height⟩)

/-- Repeated `poll` calls over a sequence of socket outcomes. -/
def pollRun (decode : List Nat → Option Image) (s : State)
    (msgs : List (Option (List Nat))) : State :=
  msgs.foldl (fun st m => (poll decode st m).2) s

/-- The stored size agrees with the dimensions of the stored frame
whenever a frame is stored. -/
def sizeMatches (s : State) : Prop :=
  ∀ im, s.lastRgb = some im → s.w = im.width ∧ s.h = im.height

end CameraStream

namespace SensorBus

/-- A parsed JSON value, as produced by `json.loads`. -/
inductive Json where
  | null
  | bool (b : Bool)
  | num (q : ℚ)
  | str (s : String)
  | arr (xs : List Json)
  | obj (kvs : List (String × Json))

/-- `obj.get(k)` on a JSON object: the value of the first binding of key
`k`, if any. -/
def jsonGet (kvs : List (String × Json)) (k : String) : Option Json :=
  (kvs.find? (fun kv => kv.1 == k)).map (fun kv => kv.2)

/-- Whether a JSON value is a hashable Python value (usable as a dict
key): lists and dicts are not. -/
def hashable : Json → Bool
  | .arr _ => false
  | .obj _ => false
  | _ => true

/-- The outcome of receiving one socket message body: either
`json.loads` raises (malformed bytes) or it yields a JSON value. -/
inductive Msg where
  | malformed
  | parsed (j : Json)

/-- `self.latest`: the per-topic cache.  A Python dict keyed by whatever
`obj.get("topic", "unknown")` returned; modelled as an association list
where the most recent binding for a key comes first. -/
abbrev Cache := List (Json × Json)

/-- Whether a cache key equals the string `topic` (the argument of
`SensorBus.get`). -/
def keyMatches (topic : String) : Json → Bool
  | .str s => s == topic
  | _ => false

/-- `SensorBus.get(topic)` (sensor_bus.py lines 40-41) with the default
left as `None`: the latest cached value for the topic, if any. -/
def get (latest : Cache) (topic : String) : Option Json :=
  (latest.find? (fun kv => keyMatches topic kv.1)).map (fun kv => kv.2)

/-- The body of one iteration of the `poll` drain loop (sensor_bus.py
lines 30-37): parse the message, read `topic` (default `"unknown"`) and
`data` (default: the whole object), store `latest[topic] = data` and
count the message; any failure (parse error, non-dict value, unhashable
topic key) is swallowed by the `except` and the message is dropped
uncounted. -/
def processMsg (latest : Cache) : Msg → Cache × Bool
  | .malformed => (latest, false)
  | .parsed j =>
    match j with
    | .obj kvs =>
      let topic := (jsonGet kvs "topic").getD (.str "unknown")
      let data := (jsonGet kvs "data").getD (.obj kvs)
      if hashable topic then ((topic, data) :: latest, true) else (latest, false)
    | _ => (latest, false)

/-- `SensorBus.poll(max_msgs)` (sensor_bus.py lines 23-38): drain up to
`maxMsgs` messages from the pending backlog (`[]` pending = `zmq.Again`,
which breaks the loop), returning the count of successfully processed
messages, the updated cache, and the backlog left unread. -/
def poll (latest : Cache) (pending : List Msg) : Nat → Nat × Cache × List Msg
  | 0 => (0, latest, pending)
  | n + 1 =>
    match pending with
    | [] => (0, latest, pending)
    | m :: rest =>
      let r := processMsg latest m
      let rec' := poll r.1 rest n
      ((if r.2 then 1 else 0) + rec'.1, rec'.2.1, rec'.2.2)

end SensorBus

namespace Publisher

/-- The three frames of the delay scenario: capture timestamps 0 ms,
50 ms and 100 ms, expressed in seconds. -/
def frame0 : Frame := ⟨0, 0⟩

def frame1 : Frame := ⟨1, 1 / 20⟩

def frame2 : Frame := ⟨2, 1 / 10⟩

end Publisher

namespace SensorBus

/-- The two messages of the full-replace scenario:
`{"topic":"pose","data":{"x":1,"y":2,"z":3}}` then
`{"topic":"pose","data":{"x":9}}`. -/
def poseMsg1 : Msg :=
  .parsed (.obj [("topic", .str "pose"),
    ("data", .obj [("x", .num 1), ("y", .num 2), ("z", .num 3)])])

def poseMsg2 : Msg :=
  .parsed (.obj [("topic", .str "pose"), ("data", .obj [("x", .num 9)])])

end SensorBus

namespace CameraStream

/-- One `poll` call preserves the agreement between the stored size and
the stored frame. -/
theorem poll_preserves_sizeMatches (decode : List Nat → Option Image)
    (s : State) (m : Option (List Nat)) (h : sizeMatches s) :
    sizeMatches (poll decode s m).2 := by
  match m with
  | none => exact h
  | some msg =>
    match hd : decode msg with
    | none => simpa [poll, hd] using h
    | some img =>
      intro im him
      simp only [poll, hd] at him ⊢
      cases him
      exact ⟨rfl, rfl⟩

/-- One `poll` call never clears a stored frame. -/
theorem poll_preserves_some (decode : List Nat → Option Image)
    (s : State) (m : Option (List Nat)) (h : s.lastRgb ≠ none) :
    (poll decode s m).2.lastRgb ≠ none := by
  match m with
  | none => exact h
  | some msg =>
    match hd : decode msg with
    | none => simpa [poll, hd] using h
    | some img => simp [poll, hd]

end CameraStream

open Publisher CameraStream SensorBus

/-- C1: over any sequence of captures (appending encoded frames in capture
order) and drain passes of the publisher loop, the transmitted frames
followed by the frames still queued equal exactly the appended frames in
insertion order — the drain pops only from the head and never reorders,
so no newer frame is ever sent before an older one still in the queue. -/
theorem publisher_fifo_order (delayMs : ℚ) (evs : List Event) :
    (run delayMs ⟨[], []⟩ evs).sent ++ (run delayMs ⟨[], []⟩ evs).queue
        = captured evs ∧
    ∀ now q, (drain delayMs now q).1 ++ (drain delayMs now q).2 = q := by
  refine ⟨?_, fun now q => drain_sent_append_rest delayMs now q⟩
  have h := run_sent_queue delayMs evs ⟨[], []⟩
  simpa using h

/-- C2: a frame is transmitted only when `(now - ts) * 1000 >= delay_ms`,
the boundary being inclusive (a head whose age is exactly `delay_ms` is
sent); and the three-frame scenario (timestamps 0 ms, 50 ms, 100 ms,
`delay_ms = 80`) transmits exactly the first frame when draining at
t = 90 ms, and all three in order 0, 50, 100 after a further drain at
t = 200 ms. -/
theorem publisher_delay_gate :
    (∀ (delayMs now : ℚ) (q : List Frame),
        ∀ f ∈ (drain delayMs now q).1, delayMs ≤ (now - f.ts) * 1000) ∧
    (∀ (delayMs now : ℚ) (f : Frame) (rest : List Frame),
        (now - f.ts) * 1000 = delayMs →
        (drain delayMs now (f :: rest)).1.head? = some f) ∧
    (run 80 ⟨[], []⟩
        [.capture frame0, .capture frame1, .capture frame2,
          .drainAt (9 / 100)]).sent = [frame0] ∧
    (run 80 ⟨[], []⟩
        [.capture frame0, .capture frame1, .capture frame2,
          .drainAt (9 / 100), .drainAt (1 / 5)]).sent
      = [frame0, frame1, frame2] := by
  refine ⟨fun delayMs now q => drain_sent_aged delayMs now q, ?_, ?_, ?_⟩
  · intro delayMs now f rest h
    simp [drain, h.ge]
  · norm_num [run, step, drain, frame0, frame1, frame2]
  · norm_num [run, step, drain, frame0, frame1, frame2]

theorem publisher_delay_gate_witness :
    (80 : ℚ) ≤ (9 / 100 - frame0.ts) * 1000 ∧
    (drain 80 (2 / 25) [frame0]).1.head? = some frame0 :=
  ⟨publisher_delay_gate.1 80 (9 / 100) [frame0, frame1, frame2] frame0
      (by norm_num [drain, frame0, frame1, frame2]),
    publisher_delay_gate.2.1 80 (2 / 25) frame0 [] (by norm_num [frame0])⟩

/-- C3 counterexample: the claim says the pacing sleep subtracts the time
spent in the whole iteration, capture and encode included.  The code
measures the elapsed time only from the reading `now` taken after capture
and encode: in an iteration starting at t = 0 whose capture/encode phase
ends at t = 1/2 and whose drain ends at t = 3/5, with
`actual_fps = 1`, the code sleeps 9/10 while the claimed formula gives
2/5. -/
theorem pace_sleep_counterexample :
    (0 : ℚ) ≤ 1 / 2 ∧ (1 : ℚ) / 2 ≤ 3 / 5 ∧
    paceSleep 1 ⟨0, 1 / 2, 3 / 5⟩ ≠ paceSleepClaimed 1 ⟨0, 1 / 2, 3 / 5⟩ := by
  refine ⟨by norm_num, by norm_num, ?_⟩
  simp only [paceSleep, paceSleepClaimed, targetDt]
  norm_num

/-- C3 (amended): at the end of every iteration the loop sleeps for
`max(0, target_dt - (tEnd - tNow))`, where `tNow` is the clock reading
taken after capture and encode (just before the drain): the sleep is
never negative, it tops the measured interval up to at least `target_dt`,
and it is zero when the measured interval already exceeds `target_dt`. -/
theorem pace_sleep_amended (actualFps : ℚ) (c : IterClock) :
    0 ≤ paceSleep actualFps c ∧
    targetDt actualFps ≤ (c.tEnd - c.tNow) + paceSleep actualFps c ∧
    (targetDt actualFps ≤ c.tEnd - c.tNow → paceSleep actualFps c = 0) := by
  refine ⟨le_max_left 0 _, ?_, ?_⟩
  · have h : targetDt actualFps - (c.tEnd - c.tNow) ≤ paceSleep actualFps c :=
      le_max_right 0 _
    linarith
  · intro h
    simp only [paceSleep]
    rw [max_eq_left]
    linarith

theorem pace_sleep_amended_witness : paceSleep 1 ⟨0, 0, 2⟩ = 0 :=
  (pace_sleep_amended 1 ⟨0, 0, 2⟩).2.2 (by norm_num [targetDt])

/-- C9: when the generic camera opens, a reported frame rate that is zero
or effectively zero (at most 1e-3) is replaced by the default 30 Hz,
while a rate above that threshold is returned unchanged; the ZED path
likewise falls back to 30 only on a zero (falsy) report. -/
theorem camera_fps_fallback :
    (∀ dev : CvDevice, dev.opened = true → dev.reportedFps ≤ 1 / 1000 →
        open_cv_camera dev
          = some (pyInt dev.reportedW, pyInt dev.reportedH, 30)) ∧
    (∀ dev : CvDevice, dev.opened = true → 1 / 1000 < dev.reportedFps →
        open_cv_camera dev
          = some (pyInt dev.reportedW, pyInt dev.reportedH, dev.reportedFps)) ∧
    zedFps 0 = 30 ∧ (∀ r : ℚ, r ≠ 0 → zedFps r = r) := by
  refine ⟨?_, ?_, by simp [zedFps], ?_⟩
  · intro dev hop hle
    simp only [open_cv_camera]
    rw [if_pos hop, if_pos hle]
  · intro dev hop hlt
    simp only [open_cv_camera]
    rw [if_pos hop, if_neg (not_le.mpr hlt)]
  · intro r hr
    simp [zedFps, hr]

theorem camera_fps_fallback_witness :
    open_cv_camera ⟨true, 640, 480, 0⟩ = some (640, 480, 30) ∧
    open_cv_camera ⟨true, 640, 480, 25⟩ = some (640, 480, 25) := by
  constructor
  · have h := camera_fps_fallback.1 ⟨true, 640, 480, 0⟩ rfl (by norm_num)
    simpa [pyInt] using h
  · have h := camera_fps_fallback.2.1 ⟨true, 640, 480, 25⟩ rfl (by norm_num)
    simpa [pyInt] using h

/-- C4: when the received bytes fail to decode as an image,
`CameraStream.poll` returns false and the state — the stored frame and
the stored size — is exactly the state before the call. -/
theorem camera_decode_failure_noop (decode : List Nat → Option Image)
    (s : State) (msg : List Nat) (h : decode msg = none) :
    CameraStream.poll decode s (some msg) = (false, s) := by
  simp [CameraStream.poll, h]

theorem camera_decode_failure_noop_witness :
    CameraStream.poll (fun _ => none) initState (some [0])
      = (false, initState) :=
  camera_decode_failure_noop (fun _ => none) initState [0] rfl

/-- C10: a fresh `CameraStream` has no frame and the default size
(1280, 720); a successful `poll` stores a frame whose dimensions are
exactly the stored size; the size/frame agreement is preserved by any
sequence of `poll` calls; and once a frame is stored, no sequence of
`poll` calls (failed receives and failed decodes included) ever clears
it. -/
theorem camera_state_invariants :
    (initState.lastRgb = none ∧ size initState = (1280, 720)) ∧
    (∀ (decode : List Nat → Option Image) (s : State)
        (inc : Option (List Nat)),
        (CameraStream.poll decode s inc).1 = true →
        ∃ im, (CameraStream.poll decode s inc).2.lastRgb = some im ∧
          (CameraStream.poll decode s inc).2.w = im.width ∧
          (CameraStream.poll decode s inc).2.h = im.height) ∧
    (∀ (decode : List Nat → Option Image) (s : State)
        (msgs : List (Option (List Nat))),
        sizeMatches s → sizeMatches (pollRun decode s msgs)) ∧
    (∀ (decode : List Nat → Option Image) (s : State)
        (msgs : List (Option (List Nat))),
        s.lastRgb ≠ none → (pollRun decode s msgs).lastRgb ≠ none) := by
  refine ⟨⟨rfl, rfl⟩, ?_, ?_, ?_⟩
  · intro decode s inc h
    match inc with
    | none => simp [CameraStream.poll] at h
    | some msg =>
      match hd : decode msg with
      | none => simp [CameraStream.poll, hd] at h
      | some img =>
        exact ⟨bgr2rgb (flipud img), by simp [CameraStream.poll, hd]⟩
  · intro decode s msgs
    induction msgs generalizing s with
    | nil => intro h; exact h
    | cons m rest ih =>
      intro h
      exact ih _ (poll_preserves_sizeMatches decode s m h)
  · intro decode s msgs
    induction msgs generalizing s with
    | nil => intro h; exact h
    | cons m rest ih =>
      intro h
      exact ih _ (poll_preserves_some decode s m h)

theorem camera_state_invariants_witness :
    (pollRun (fun _ => none) ⟨some ⟨[]⟩, 0, 0⟩ [none, some [7]]).lastRgb
      ≠ none :=
  camera_state_invariants.2.2.2 (fun _ => none) ⟨some ⟨[]⟩, 0, 0⟩
    [none, some [7]] (by simp)

/-- C7: polling with no pending message is a no-op: `CameraStream.poll`
returns false and leaves the state untouched (any number of such calls
changes nothing), and `SensorBus.poll` on an empty backlog returns 0 with
the cache untouched (iterating it any number of times changes
nothing). -/
theorem poll_no_pending_noop :
    (∀ (decode : List Nat → Option Image) (s : State),
        CameraStream.poll decode s none = (false, s)) ∧
    (∀ (decode : List Nat → Option Image) (s : State) (n : Nat),
        pollRun decode s (List.replicate n none) = s) ∧
    (∀ (latest : Cache) (n : Nat),
        SensorBus.poll latest [] n = (0, latest, [])) ∧
    (∀ (latest : Cache) (n k : Nat),
        (fun l => (SensorBus.poll l [] n).2.1)^[k] latest = latest) := by
  have hsb : ∀ (latest : Cache) (n : Nat),
      SensorBus.poll latest [] n = (0, latest, []) := by
    intro latest n
    cases n <;> rfl
  refine ⟨fun decode s => rfl, ?_, hsb, ?_⟩
  · intro decode s n
    induction n generalizing s with
    | zero => rfl
    | succ k ih =>
      simp only [List.replicate_succ, pollRun, List.foldl_cons]
      exact ih _
  · intro latest n k
    exact Function.iterate_fixed (by rw [hsb]) k

/-- C8: `SensorBus.poll(max_messages)` processes a count of at most
`max_messages`, drains at most `max_messages` messages from the backlog,
and with `max_messages = 0` it returns 0 and changes nothing. -/
theorem sensorbus_poll_bounded :
    (∀ (latest : Cache) (pending : List Msg) (n : Nat),
        (SensorBus.poll latest pending n).1 ≤ n) ∧
    (∀ (latest : Cache) (pending : List Msg) (n : Nat),
        pending.length ≤ (SensorBus.poll latest pending n).2.2.length + n) ∧
    (∀ (latest : Cache) (pending : List Msg),
        SensorBus.poll latest pending 0 = (0, latest, pending)) := by
  refine ⟨?_, ?_, fun latest pending => by simp [SensorBus.poll]⟩
  · intro latest pending n
    induction n generalizing latest pending with
    | zero => simp [SensorBus.poll]
    | succ k ih =>
      match pending with
      | [] => exact Nat.zero_le _
      | m :: rest =>
        simp only [SensorBus.poll]
        have h := ih (processMsg latest m).1 rest
        split <;> omega
  · intro latest pending n
    induction n generalizing latest pending with
    | zero => simp [SensorBus.poll]
    | succ k ih =>
      match pending with
      | [] => simp [SensorBus.poll]
      | m :: rest =>
        simp only [SensorBus.poll, List.length_cons]
        have h := ih (processMsg latest m).1 rest
        omega

/-- C6: a message whose body fails to parse is silently discarded — the
cache is unchanged, the message is not counted — and the drain continues
with the rest of the backlog. -/
theorem sensorbus_malformed_skipped :
    (∀ latest : Cache, processMsg latest .malformed = (latest, false)) ∧
    (∀ (latest : Cache) (rest : List Msg) (n : Nat),
        SensorBus.poll latest (.malformed :: rest) (n + 1)
          = SensorBus.poll latest rest n) := by
  refine ⟨fun latest => rfl, ?_⟩
  intro latest rest n
  simp [SensorBus.poll, processMsg]

/-- C5: storing a JSON-object message uses `topic` (defaulting to the
sentinel "unknown" when absent) as the key and `data` (defaulting to the
whole object when absent) as the payload, fully replacing the prior value
for that topic; the two-message pose scenario ends with
`get("pose") = {"x": 9}`. -/
theorem sensorbus_store_semantics :
    (∀ (latest : Cache) (kvs : List (String × Json)),
        hashable ((jsonGet kvs "topic").getD (.str "unknown")) = true →
        processMsg latest (.parsed (.obj kvs))
          = (((jsonGet kvs "topic").getD (.str "unknown"),
              (jsonGet kvs "data").getD (.obj kvs)) :: latest, true)) ∧
    (∀ (rest : Cache) (t : String) (v : Json),
        SensorBus.get ((Json.str t, v) :: rest) t = some v) ∧
    SensorBus.get (SensorBus.poll [] [poseMsg1, poseMsg2] 10).2.1 "pose"
      = some (Json.obj [("x", Json.num 9)]) := by
  refine ⟨?_, ?_, ?_⟩
  · intro latest kvs h
    simp [processMsg, h]
  · intro rest t v
    simp [SensorBus.get, List.find?, keyMatches]
  · rfl

theorem sensorbus_store_semantics_witness :
    processMsg [] (.parsed (.obj [("topic", Json.str "pose")]))
      = ([(Json.str "pose", Json.obj [("topic", Json.str "pose")])], true) := by
  have h := sensorbus_store_semantics.1 [] [("topic", Json.str "pose")] rfl
  simpa [jsonGet] using h

end SpacebotLink
